import Mathlib

/-!
Verification of the braveWorkspaces browser-extension background logic.

The definitions below are a shallow embedding of `src/background.js`
(equivalently the TypeScript variant): pure helpers are translated to Lean
functions, the callback-style platform API is modelled as explicit data
(lists of windows, tabs and tab groups, with platform calls that succeed),
JS numbers that only ever hold integers are modelled as `Int`/`Nat`, and
`null`/`undefined` values are modelled with `Option`.
-/

-- ---------- colors (src/background.js: PRESET_GROUP_COLOR_MAP, hexToRgb,
-- normalizeHex6, rgbToHsl, mapHexToGroupColor) ----------

/-- The eight native tab-group colors (chrome.tabGroups.Color). -/
inductive GroupColor where
  | grey
  | blue
  | red
  | yellow
  | green
  | pink
  | purple
  | cyan
  deriving DecidableEq, Repr

structure Rgb where
  r : Nat
  g : Nat
  b : Nat
  deriving DecidableEq, Repr

def isHexDigitChar (c : Char) : Bool :=
  (('0' ≤ c) && (c ≤ '9')) || (('a' ≤ c) && (c ≤ 'f')) || (('A' ≤ c) && (c ≤ 'F'))

def hexDigitVal (c : Char) : Nat :=
  if ('0' ≤ c) && (c ≤ '9') then c.toNat - '0'.toNat
  else if ('a' ≤ c) && (c ≤ 'f') then c.toNat - 'a'.toNat + 10
  else c.toNat - 'A'.toNat + 10

/-- JS `String.prototype.trim()` (on the ASCII inputs relevant here). -/
def jsTrim (s : String) : List Char :=
  ((s.toList.dropWhile Char.isWhitespace).reverse.dropWhile Char.isWhitespace).reverse

/-- The leading `#?` of the regexes `^#?([0-9a-fA-F]{6})$` / `^#?([0-9a-fA-F]{3})$`. -/
def stripHash : List Char → List Char
  | '#' :: rest => rest
  | cs => cs

/-- `hexToRgb` from src/background.js: parse `#RRGGBB` or `#RGB` (optional `#`,
any case, surrounding whitespace trimmed); `null` on anything else. -/
def hexToRgb (hex : String) : Option Rgb :=
  let cs := stripHash (jsTrim hex)
  if cs.length = 6 && cs.all isHexDigitChar then
    match cs with
    | [c1, c2, c3, c4, c5, c6] =>
      some { r := 16 * hexDigitVal c1 + hexDigitVal c2
           , g := 16 * hexDigitVal c3 + hexDigitVal c4
           , b := 16 * hexDigitVal c5 + hexDigitVal c6 }
    | _ => none
  else if cs.length = 3 && cs.all isHexDigitChar then
    match cs with
    | [c1, c2, c3] =>
      some { r := 16 * hexDigitVal c1 + hexDigitVal c1
           , g := 16 * hexDigitVal c2 + hexDigitVal c2
           , b := 16 * hexDigitVal c3 + hexDigitVal c3 }
    | _ => none
  else none

def hexCharUpper (n : Nat) : Char :=
  if n < 10 then Char.ofNat ('0'.toNat + n) else Char.ofNat ('A'.toNat + n - 10)

/-- JS `n.toString(16).padStart(2, "0").toUpperCase()` for `n ≤ 255`. -/
def toHex2Upper (n : Nat) : List Char := [hexCharUpper (n / 16), hexCharUpper (n % 16)]

/-- `normalizeHex6` from src/background.js: canonical uppercase `#RRGGBB` form. -/
def normalizeHex6 (hex : String) : Option String :=
  (hexToRgb hex).map (fun rgb =>
    ⟨'#' :: (toHex2Upper rgb.r ++ toHex2Upper rgb.g ++ toHex2Upper rgb.b)⟩)

/-- The fixed preset table from src/background.js. -/
def PRESET_GROUP_COLOR_MAP : List (String × GroupColor) :=
  [ ("#FF5252", .red)
  , ("#FF7F50", .yellow)
  , ("#FFA726", .yellow)
  , ("#FFEB3B", .yellow)
  , ("#C6FF00", .green)
  , ("#00E676", .green)
  , ("#1DE9B6", .cyan)
  , ("#00E5FF", .cyan)
  , ("#2979FF", .blue)
  , ("#651FFF", .purple)
  , ("#D500F9", .purple)
  , ("#F06292", .pink)
  , ("#8D6E63", .grey)
  , ("#BDBDBD", .grey)
  , ("#607D8B", .blue)
  , ("#F44336", .red)
  , ("#FF9800", .yellow)
  , ("#FFEE58", .yellow)
  , ("#66BB6A", .green)
  , ("#42A5F5", .blue)
  , ("#FF9100", .yellow) ]

/-- The 20 color-picker presets from src/popup.ts (`COLOR_PRESETS`). -/
def COLOR_PRESETS : List String :=
  [ "#FF5252", "#FF7F50", "#FFA726", "#FFEB3B", "#C6FF00"
  , "#00E676", "#1DE9B6", "#00E5FF", "#2979FF", "#651FFF"
  , "#D500F9", "#F06292", "#8D6E63", "#BDBDBD", "#607D8B"
  , "#F44336", "#FF9800", "#FFEE58", "#66BB6A", "#42A5F5" ]

structure Hsl where
  h : Rat
  s : Rat
  l : Rat
  deriving DecidableEq, Repr

/-- `rgbToHsl` from src/background.js, with exact rational arithmetic in place
of JS floating point. -/
def rgbToHsl (r0 g0 b0 : Nat) : Hsl :=
  let r : Rat := (r0 : Rat) / 255
  let g : Rat := (g0 : Rat) / 255
  let b : Rat := (b0 : Rat) / 255
  let mx := max r (max g b)
  let mn := min r (min g b)
  let l := (mx + mn) / 2
  if mx = mn then { h := 0, s := 0, l := l }
  else
    let d := mx - mn
    let s := if l > (1 : Rat) / 2 then d / (2 - mx - mn) else d / (mx + mn)
    let h :=
      if mx = r then (g - b) / d + (if g < b then (6 : Rat) else 0)
      else if mx = g then (b - r) / d + 2
      else (r - g) / d + 4
    { h := h * 60, s := s, l := l }

/-- `mapHexToGroupColor` from src/background.js: preset table first, then an
HSL bucket fallback; malformed input gives grey. -/
def mapHexToGroupColor (hex : String) : GroupColor :=
  let fromPreset := (normalizeHex6 hex).bind (fun key => PRESET_GROUP_COLOR_MAP.lookup key)
  match fromPreset with
  | some c => c
  | none =>
    match hexToRgb hex with
    | none => .grey
    | some rgb =>
      let hsl := rgbToHsl rgb.r rgb.g rgb.b
      if hsl.s < (15 : Rat) / 100 then .grey
      else if hsl.l > (8 : Rat) / 10 then .yellow
      else if hsl.h < 15 ∨ 345 ≤ hsl.h then .red
      else if hsl.h < 60 then .yellow
      else if hsl.h < 150 then .green
      else if hsl.h < 200 then .cyan
      else if hsl.h < 255 then .blue
      else if hsl.h < 315 then .purple
      else .pink

/-- Modelled from the spec (claim C7 wording): the HSL bucket rule, in order:
saturation < 0.15 gives grey, else lightness > 0.8 gives yellow, else hue with
boundaries 15/60/150/200/255/315/345 degrees giving
red/yellow/green/cyan/blue/purple/pink, with hue >= 345 or < 15 giving red. -/
def hslBucketSpec (hsl : Hsl) : GroupColor :=
  if hsl.s < (15 : Rat) / 100 then .grey
  else if hsl.l > (8 : Rat) / 10 then .yellow
  else if hsl.h < 15 ∨ 345 ≤ hsl.h then .red
  else if hsl.h < 60 then .yellow
  else if hsl.h < 150 then .green
  else if hsl.h < 200 then .cyan
  else if hsl.h < 255 then .blue
  else if hsl.h < 315 then .purple
  else .pink

/-- Claim C7: the color classifier is total: every input yields one of the 8
group colors; malformed input (no `#RGB`/`#RRGGBB` parse) yields grey; each of
the 20 documented color-picker presets maps to its fixed table entry; and a
valid hex that misses the preset table is bucketed by the HSL rule with the
documented saturation/lightness/hue boundaries. -/
theorem c7_color_classifier :
    (∀ hex : String, mapHexToGroupColor hex ∈
      [GroupColor.grey, .blue, .red, .yellow, .green, .pink, .purple, .cyan]) ∧
    (∀ hex : String, hexToRgb hex = none → mapHexToGroupColor hex = .grey) ∧
    (∀ p ∈ COLOR_PRESETS, PRESET_GROUP_COLOR_MAP.lookup p = some (mapHexToGroupColor p)) ∧
    (∀ (hex : String) (rgb : Rgb), hexToRgb hex = some rgb →
      (normalizeHex6 hex).bind (fun key => PRESET_GROUP_COLOR_MAP.lookup key) = none →
      mapHexToGroupColor hex = hslBucketSpec (rgbToHsl rgb.r rgb.g rgb.b)) := by
  refine ⟨?_, ?_, ?_, ?_⟩
  · intro hex
    cases h : mapHexToGroupColor hex <;> simp
  · intro hex h
    have hn : normalizeHex6 hex = none := by simp [normalizeHex6, h]
    simp [mapHexToGroupColor, hn, h]
  · decide
  · intro hex rgb hrgb hmiss
    simp [mapHexToGroupColor, hmiss, hrgb, hslBucketSpec]

/-- Claim C7 witness: the theorem's conditional clauses applied at concrete
inputs: the malformed string `"oops"`, the preset `"#FF5252"`, and the
non-preset valid hex `"#123456"`. -/
theorem c7_color_classifier_witness :
    (hexToRgb "oops" = none ∧ mapHexToGroupColor "oops" = .grey) ∧
    ("#FF5252" ∈ COLOR_PRESETS ∧
      PRESET_GROUP_COLOR_MAP.lookup "#FF5252" = some (mapHexToGroupColor "#FF5252")) ∧
    (mapHexToGroupColor "#123456" =
      hslBucketSpec (rgbToHsl 18 52 86)) :=
  ⟨⟨by decide, c7_color_classifier.2.1 "oops" (by decide)⟩,
   ⟨by decide, c7_color_classifier.2.2.1 "#FF5252" (by decide)⟩,
   c7_color_classifier.2.2.2 "#123456" ⟨18, 52, 86⟩ (by decide) (by decide)⟩

-- ---------- data model (src/unnamed/part_006 types, src/background.js state
-- helpers) ----------

structure Workspace where
  id : String
  name : String
  color : String
  icon : String
  deriving DecidableEq, Repr

structure ExtensionState where
  workspaces : List Workspace
  activeWorkspaceId : Option String
  deriving DecidableEq, Repr

/-- `getWorkspaceGroupTitle`: `icon + " " + name`, or just `name` when the
icon string is falsy (empty). -/
def getWorkspaceGroupTitle (w : Workspace) : String :=
  if w.icon = "" then w.name else w.icon ++ " " ++ w.name

/-- `getWorkspaceByGroupTitle`: `null` on a falsy (empty/absent) title, else
the first workspace whose derived title matches. -/
def getWorkspaceByGroupTitle (workspaces : List Workspace) (groupTitle : String) :
    Option Workspace :=
  if groupTitle = "" then none
  else workspaces.find? (fun w => getWorkspaceGroupTitle w == groupTitle)

def charsLead : List Char → List Char → Bool
  | [], _ => true
  | _ :: _, [] => false
  | c :: cs, d :: ds => c == d && charsLead cs ds

/-- JS `url.startsWith(scheme)`. -/
def urlStarts (url scheme : String) : Bool := charsLead scheme.toList url.toList

/-- `isInternalBrowserUrl` from src/background.js. -/
def isInternalBrowserUrl (url : String) : Bool :=
  urlStarts url "chrome://" || urlStarts url "brave://" ||
  urlStarts url "devtools://" || urlStarts url "chrome-extension://"

-- ---------- snapshot schema (src/background.js snapshot types) ----------

inductive WindowStateKind where
  | normal
  | maximized
  | fullscreen
  | minimized
  deriving DecidableEq, Repr

structure TabSnapshotV2 where
  url : String
  pinned : Bool
  workspaceId : Option String
  active : Bool
  deriving DecidableEq, Repr

structure WindowSnapshotV2 where
  tabs : List TabSnapshotV2
  focused : Bool
  state : WindowStateKind
  left : Option Int := none
  top : Option Int := none
  width : Option Int := none
  height : Option Int := none
  deriving DecidableEq, Repr

structure WorkspaceSessionSnapshotV2 where
  version : Nat
  savedAt : Int
  activeWorkspaceId : Option String
  windows : List WindowSnapshotV2
  deriving DecidableEq, Repr

/-- `normalizeWindowState` applied to a chrome window's state string
(`undefined` modelled as `none`). -/
def normalizeWindowState (state : Option String) : WindowStateKind :=
  match state with
  | some "maximized" => .maximized
  | some "fullscreen" => .fullscreen
  | some "normal" => .normal
  | some "minimized" => .minimized
  | _ => .normal

/-- The `if (tabs.length > 0 && !tabs.some((tab) => tab.active)) tabs[0].active = true`
pattern shared by capture, the v2 decoder and the v1 upgrade. -/
def forceFirstActive (tabs : List TabSnapshotV2) : List TabSnapshotV2 :=
  match tabs with
  | [] => []
  | first :: rest =>
    if (first :: rest).any (fun t => t.active) then first :: rest
    else { first with active := true } :: rest

-- ---------- live browser state as seen by capture ----------

/-- A live tab as returned by `chrome.windows.getAll({populate:true})`. -/
structure CTab where
  index : Int
  url : Option String
  pendingUrl : Option String
  pinned : Bool
  active : Bool
  groupId : Int
  deriving DecidableEq, Repr

def TAB_GROUP_ID_NONE : Int := -1

/-- A live normal-type browser window. -/
structure CWindow where
  id : Option Int
  tabs : List CTab
  focused : Bool
  state : Option String
  left : Option Int := none
  top : Option Int := none
  width : Option Int := none
  height : Option Int := none
  deriving DecidableEq, Repr

/-- A native tab group as returned by `chrome.tabGroups.query`. -/
structure TabGroup where
  id : Int
  windowId : Int
  title : String
  color : GroupColor
  collapsed : Bool
  deriving DecidableEq, Repr

/-- `getRestorableUrl` from src/background.js: `pendingUrl ?? url`, `null` when
falsy (absent or empty) or internal/privileged. -/
def getRestorableUrl (tab : CTab) : Option String :=
  let url := match tab.pendingUrl with | some u => some u | none => tab.url
  match url with
  | none => none
  | some u => if u = "" then none else if isInternalBrowserUrl u then none else some u

/-- Stable sort of `window.tabs` by `a.index - b.index` (JS `Array.sort` is
stable); modelled as stable insertion sort. -/
def insertTabByIndex (t : CTab) : List CTab → List CTab
  | [] => [t]
  | u :: us => if t.index ≤ u.index then t :: u :: us else u :: insertTabByIndex t us

def sortTabsByIndex : List CTab → List CTab
  | [] => []
  | t :: ts => insertTabByIndex t (sortTabsByIndex ts)

/-- JS `Map.prototype.set` on a number-keyed map modelled as an assoc list. -/
def mapSet (m : List (Int × String)) (k : Int) (v : String) : List (Int × String) :=
  if m.any (fun p => p.1 == k) then m.map (fun p => if p.1 == k then (k, v) else p)
  else m ++ [(k, v)]

def mapGet (m : List (Int × String)) (k : Int) : Option String :=
  (m.find? (fun p => p.1 == k)).map (fun p => p.2)

/-- The `groupIdToWorkspaceId` map built by `persistWorkspaceSessionSnapshot`
for one window. -/
def buildGroupIdToWorkspaceId (workspaces : List Workspace) (groups : List TabGroup) :
    List (Int × String) :=
  groups.foldl (fun m group =>
    match getWorkspaceByGroupTitle workspaces group.title with
    | some ws => mapSet m group.id ws.id
    | none => m) []

/-- The `tabSnapshots` list built by `persistWorkspaceSessionSnapshot` for one
window, before the forced-active fixup: tabs sorted by index, internal/absent
URLs dropped, workspace id resolved through the window's group-id map. -/
def captureTabSnapshots (state : ExtensionState) (allGroups : List TabGroup)
    (window : CWindow) (windowId : Int) : List TabSnapshotV2 :=
  let groups := allGroups.filter (fun g => g.windowId == windowId)
  let gmap := buildGroupIdToWorkspaceId state.workspaces groups
  let tabsInWindow := sortTabsByIndex window.tabs
  tabsInWindow.foldl (fun acc tab =>
    match getRestorableUrl tab with
    | none => acc
    | some url =>
      let workspaceId :=
        if tab.groupId == TAB_GROUP_ID_NONE then none else mapGet gmap tab.groupId
      acc ++ [{ url := url, pinned := tab.pinned, workspaceId := workspaceId
              , active := tab.active }]) []

/-- The per-window body of `persistWorkspaceSessionSnapshot`: the tab snapshots
above with the first tab forced active when no tab is active, plus the window's
focus/state/geometry. -/
def captureWindowSnapshot (state : ExtensionState) (allGroups : List TabGroup)
    (window : CWindow) (windowId : Int) : WindowSnapshotV2 :=
  { tabs := forceFirstActive (captureTabSnapshots state allGroups window windowId)
  , focused := window.focused
  , state := normalizeWindowState window.state
  , left := window.left, top := window.top
  , width := window.width, height := window.height }

/-- The capture part of `persistWorkspaceSessionSnapshot`: `none` models the
early `return` paths where no snapshot value is produced. Windows without an
id are skipped (`continue`); every other window contributes a window snapshot
(even with an empty tab list). -/
def captureWorkspaceSessionSnapshot (state : ExtensionState) (windows : List CWindow)
    (allGroups : List TabGroup) (now : Int) : Option WorkspaceSessionSnapshotV2 :=
  if windows.isEmpty then none
  else
    let windowSnapshots := windows.foldl (fun acc window =>
      match window.id with
      | none => acc
      | some windowId => acc ++ [captureWindowSnapshot state allGroups window windowId]) []
    if windowSnapshots.isEmpty then none
    else some { version := 2, savedAt := now
              , activeWorkspaceId := state.activeWorkspaceId
              , windows := windowSnapshots }

/-- `persistWorkspaceSessionSnapshot`, as a transformation of the stored
snapshot value: bail out while restoring; write the captured snapshot when one
is produced, else leave storage unchanged. -/
def persistWorkspaceSessionSnapshot (isRestoring : Bool) (state : ExtensionState)
    (windows : List CWindow) (allGroups : List TabGroup) (now : Int)
    (storedSnapshot : Option WorkspaceSessionSnapshotV2) :
    Option WorkspaceSessionSnapshotV2 :=
  if isRestoring then storedSnapshot
  else
    match captureWorkspaceSessionSnapshot state windows allGroups now with
    | none => storedSnapshot
    | some snap => some snap

-- ---------- C1: when capture yields null ----------

theorem captureWindows_foldl_eq (state : ExtensionState) (allGroups : List TabGroup)
    (ws : List CWindow) (acc : List WindowSnapshotV2) :
    ws.foldl (fun acc window =>
      match window.id with
      | none => acc
      | some windowId => acc ++ [captureWindowSnapshot state allGroups window windowId]) acc
    = acc ++ ws.filterMap (fun window =>
        match window.id with
        | none => none
        | some windowId => some (captureWindowSnapshot state allGroups window windowId)) := by
  induction ws generalizing acc with
  | nil => simp
  | cons w ws ih =>
    cases h : w.id with
    | none => simp [List.foldl_cons, List.filterMap_cons, h, ih]
    | some wid => simp [List.foldl_cons, List.filterMap_cons, h, ih]

/-- Claim C1 (amended): capture yields `null` — and the stored snapshot is left
unchanged — exactly when there are no normal windows or every window lacks an
id. A window whose tabs all filter out (internal/privileged or no URL) still
contributes a window snapshot with an empty tab list, and that snapshot is
persisted. -/
theorem c1_capture_null_amended (isRestoring : Bool) (state : ExtensionState)
    (windows : List CWindow) (allGroups : List TabGroup) (now : Int)
    (stored : Option WorkspaceSessionSnapshotV2) :
    (captureWorkspaceSessionSnapshot state windows allGroups now = none ↔
      ∀ w ∈ windows, w.id = none) ∧
    ((isRestoring = true ∨ ∀ w ∈ windows, w.id = none) →
      persistWorkspaceSessionSnapshot isRestoring state windows allGroups now stored
        = stored) := by
  have hiff : captureWorkspaceSessionSnapshot state windows allGroups now = none ↔
      ∀ w ∈ windows, w.id = none := by
    unfold captureWorkspaceSessionSnapshot
    by_cases hW : windows.isEmpty
    · have : windows = [] := by simpa [List.isEmpty_iff] using hW
      subst this
      simp
    · rw [if_neg hW]
      rw [captureWindows_foldl_eq]
      simp only [List.nil_append]
      constructor
      · intro h
        have hempty : (windows.filterMap (fun window =>
            match window.id with
            | none => none
            | some windowId =>
              some (captureWindowSnapshot state allGroups window windowId))).isEmpty
            = true := by
          by_cases hE : (windows.filterMap (fun window =>
              match window.id with
              | none => none
              | some windowId =>
                some (captureWindowSnapshot state allGroups window windowId))).isEmpty
          · exact hE
          · simp [hE] at h
        intro w hw
        rw [List.isEmpty_iff, List.filterMap_eq_nil_iff] at hempty
        have := hempty w hw
        cases hid : w.id with
        | none => rfl
        | some wid => rw [hid] at this; simp at this
      · intro h
        have hempty : windows.filterMap (fun window =>
            match window.id with
            | none => none
            | some windowId =>
              some (captureWindowSnapshot state allGroups window windowId)) = [] := by
          rw [List.filterMap_eq_nil_iff]
          intro w hw
          rw [h w hw]
        simp [hempty]
  refine ⟨hiff, ?_⟩
  intro h
  unfold persistWorkspaceSessionSnapshot
  rcases h with h | h
  · simp [h]
  · cases isRestoring with
    | true => simp
    | false =>
      simp only [Bool.false_eq_true, if_false]
      rw [hiff.mpr h]

/-- A window whose only tab is an internal URL: it produces no tab snapshots. -/
def c1Window : CWindow :=
  { id := some 1
  , tabs := [{ index := 0, url := some "chrome://newtab/", pendingUrl := none
             , pinned := false, active := true, groupId := -1 }]
  , focused := true, state := some "normal" }

/-- A previously stored good snapshot. -/
def c1StoredSnapshot : WorkspaceSessionSnapshotV2 :=
  { version := 2, savedAt := 1
  , activeWorkspaceId := none
  , windows := [{ tabs := [{ url := "https://kept.example/", pinned := false
                           , workspaceId := none, active := true }]
                , focused := true, state := .normal }] }

/-- Claim C1 counterexample: one normal window whose only tab is internal, so no
window produced any tab snapshot — yet capture does not yield `null`, and the
previously persisted snapshot is overwritten (with a snapshot holding one
window with an empty tab list). -/
theorem c1_counterexample :
    captureWorkspaceSessionSnapshot { workspaces := [], activeWorkspaceId := none }
        [c1Window] [] 5 ≠ none ∧
    persistWorkspaceSessionSnapshot false { workspaces := [], activeWorkspaceId := none }
        [c1Window] [] 5 (some c1StoredSnapshot) ≠ some c1StoredSnapshot := by
  constructor
  · decide
  · decide

/-- Claim C1 witness (for the amended theorem's conditional part): with no
windows at all, nothing is written and the stored snapshot survives. -/
theorem c1_capture_null_amended_witness :
    persistWorkspaceSessionSnapshot false { workspaces := [], activeWorkspaceId := none }
        [] [] 7 (some c1StoredSnapshot) = some c1StoredSnapshot :=
  (c1_capture_null_amended false { workspaces := [], activeWorkspaceId := none }
      [] [] 7 (some c1StoredSnapshot)).2 (Or.inr (by simp))

-- ---------- raw stored values and the v2 decoder (normalizeSnapshotV2) ----------

/-- A raw JavaScript value as read back from `chrome.storage.local` (numbers
that the decoder consumes are integral, so they are modelled as `Int`). -/
inductive JSValue where
  | undef
  | nil
  | bool (b : Bool)
  | num (n : Int)
  | str (s : String)
  | arr (elems : List JSValue)
  | obj (fields : List (String × JSValue))

/-- JS truthiness. -/
def jsTruthy : JSValue → Bool
  | .undef => false
  | .nil => false
  | .bool b => b
  | .num n => !(n == 0)
  | .str s => !(s == "")
  | .arr _ => true
  | .obj _ => true

/-- JS `typeof`. -/
def jsTypeof : JSValue → String
  | .undef => "undefined"
  | .nil => "object"
  | .bool _ => "boolean"
  | .num _ => "number"
  | .str _ => "string"
  | .arr _ => "object"
  | .obj _ => "object"

/-- JS property access (`undefined` when absent or on a non-object). -/
def jsField : JSValue → String → JSValue
  | .obj fields, name => ((fields.find? (fun p => p.1 == name)).map (fun p => p.2)).getD .undef
  | _, _ => .undef

def jsIsArray : JSValue → Bool
  | .arr _ => true
  | _ => false

def jsOptString (v : JSValue) : Option String :=
  match v with | .str s => some s | _ => none

def jsOptNum (v : JSValue) : Option Int :=
  match v with | .num n => some n | _ => none

/-- `normalizeWindowState` applied to a raw snapshot field. -/
def normalizeWindowStateJS (v : JSValue) : WindowStateKind :=
  match v with
  | .str "maximized" => .maximized
  | .str "fullscreen" => .fullscreen
  | .str "normal" => .normal
  | .str "minimized" => .minimized
  | _ => .normal

/-- The per-tab filter+map of `normalizeSnapshotV2`: keep a tab only when it is
a truthy object with a string `url` and boolean `pinned`. -/
def normalizeTabV2 (tab : JSValue) : Option TabSnapshotV2 :=
  if jsTruthy tab && jsTypeof tab == "object"
      && jsTypeof (jsField tab "url") == "string"
      && jsTypeof (jsField tab "pinned") == "boolean" then
    some { url := (jsOptString (jsField tab "url")).getD ""
         , pinned := jsTruthy (jsField tab "pinned")
         , workspaceId := jsOptString (jsField tab "workspaceId")
         , active := jsTruthy (jsField tab "active") }
  else none

/-- The raw tab list accepted for one window by `normalizeSnapshotV2`, before
the forced-active fixup (`window.tabs` must be an array, else `[]`). -/
def normalizeWindowTabsV2 (window : JSValue) : List TabSnapshotV2 :=
  match jsField window "tabs" with
  | .arr elems => elems.filterMap normalizeTabV2
  | _ => []

/-- The per-window map of `normalizeSnapshotV2`. -/
def normalizeWindowV2 (window : JSValue) : WindowSnapshotV2 :=
  { tabs := forceFirstActive (normalizeWindowTabsV2 window)
  , focused := jsTruthy (jsField window "focused")
  , state := normalizeWindowStateJS (jsField window "state")
  , left := jsOptNum (jsField window "left")
  , top := jsOptNum (jsField window "top")
  , width := jsOptNum (jsField window "width")
  , height := jsOptNum (jsField window "height") }

/-- `normalizeSnapshotV2` from src/background.js: field-by-field validation of
a raw stored value against the v2 schema, dropping malformed windows/tabs;
`now` stands for `Date.now()` (used when `savedAt` is not a number). -/
def normalizeSnapshotV2 (value : JSValue) (now : Int) :
    Option WorkspaceSessionSnapshotV2 :=
  if !jsTruthy value then none
  else if !(jsTypeof value == "object") then none
  else
    match jsField value "version" with
    | .num 2 =>
      match jsField value "windows" with
      | .arr windowVals =>
        let windows :=
          (windowVals.filter (fun w => jsTruthy w && jsTypeof w == "object")).map
            normalizeWindowV2
        some { version := 2
             , savedAt := (jsOptNum (jsField value "savedAt")).getD now
             , activeWorkspaceId := jsOptString (jsField value "activeWorkspaceId")
             , windows := windows }
      | _ => none
    | _ => none

-- ---------- C2: the active-tab invariant ----------

theorem forceFirstActive_any (tabs : List TabSnapshotV2) (h : forceFirstActive tabs ≠ []) :
    (forceFirstActive tabs).any (fun t => t.active) = true := by
  cases tabs with
  | nil => simp [forceFirstActive] at h
  | cons first rest =>
    unfold forceFirstActive
    by_cases ha : (first :: rest).any (fun t => t.active) = true
    · simp [ha]
    · simp only [ha, if_false, Bool.not_eq_true] at *
      simp [ha]

theorem normalizeWindowV2_tabs (window : JSValue) :
    (normalizeWindowV2 window).tabs = forceFirstActive (normalizeWindowTabsV2 window) := rfl

theorem captureWindowSnapshot_tabs (state : ExtensionState) (allGroups : List TabGroup)
    (window : CWindow) (windowId : Int) :
    (captureWindowSnapshot state allGroups window windowId).tabs
      = forceFirstActive (captureTabSnapshots state allGroups window windowId) := rfl

/-- Claim C2 (amended): in every window of a decoder-accepted value and of a
captured snapshot, a non-empty tab list contains at least one active tab (when
the incoming list had no active tab, the first is forced active); multiple
active tabs in the raw value are preserved as-is, so "at most one active" does
not hold. -/
theorem c2_active_invariant_amended :
    (∀ (raw : JSValue) (now : Int) (s : WorkspaceSessionSnapshotV2),
      normalizeSnapshotV2 raw now = some s →
      ∀ w ∈ s.windows, w.tabs ≠ [] → w.tabs.any (fun t => t.active) = true) ∧
    (∀ (state : ExtensionState) (windows : List CWindow) (allGroups : List TabGroup)
        (now : Int) (s : WorkspaceSessionSnapshotV2),
      captureWorkspaceSessionSnapshot state windows allGroups now = some s →
      ∀ w ∈ s.windows, w.tabs ≠ [] → w.tabs.any (fun t => t.active) = true) := by
  constructor
  · intro raw now s hs w hw hne
    unfold normalizeSnapshotV2 at hs
    split at hs
    · simp at hs
    · split at hs
      · simp at hs
      · split at hs
        · split at hs
          · simp only [Option.some.injEq] at hs
            subst hs
            simp at hw
            obtain ⟨wv, -, hweq⟩ := hw
            subst hweq
            rw [normalizeWindowV2_tabs] at hne ⊢
            exact forceFirstActive_any _ hne
          · simp at hs
        · simp at hs
  · intro state windows allGroups now s hs w hw hne
    unfold captureWorkspaceSessionSnapshot at hs
    by_cases hW : windows.isEmpty
    · simp [hW] at hs
    · rw [if_neg hW] at hs
      rw [captureWindows_foldl_eq] at hs
      simp only [List.nil_append] at hs
      by_cases hE : (windows.filterMap (fun window =>
          match window.id with
          | none => none
          | some windowId =>
            some (captureWindowSnapshot state allGroups window windowId))).isEmpty
      · simp [hE] at hs
      · rw [if_neg hE] at hs
        simp only [Option.some.injEq] at hs
        subst hs
        simp only [List.mem_filterMap] at hw
        obtain ⟨win, hwinmem, hwin⟩ := hw
        cases hid : win.id with
        | none => rw [hid] at hwin; simp at hwin
        | some wid =>
          rw [hid] at hwin
          simp only [Option.some.injEq] at hwin
          subst hwin
          rw [captureWindowSnapshot_tabs] at hne ⊢
          exact forceFirstActive_any _ hne

/-- A raw stored v2 value in which one window has two tabs both `active:true`. -/
def c2RawTwoActive : JSValue :=
  .obj [ ("version", .num 2)
       , ("windows", .arr [
           .obj [ ("tabs", .arr [
               .obj [ ("url", .str "https://a.example/"), ("pinned", .bool false)
                    , ("active", .bool true) ]
             , .obj [ ("url", .str "https://b.example/"), ("pinned", .bool false)
                    , ("active", .bool true) ] ]) ] ]) ]

/-- Claim C2 counterexample: the v2 decoder accepts a raw value whose single
window carries two tabs with `active=true` and preserves both, so "at most one
tab with active=true" fails on decoder-accepted values. -/
theorem c2_counterexample :
    (normalizeSnapshotV2 c2RawTwoActive 0).map
        (fun s => s.windows.map (fun w => w.tabs.countP (fun t => t.active)))
      = some [2] := by decide

/-- A raw stored v2 value whose single window has one tab with no active flag. -/
def c2RawNoActive : JSValue :=
  .obj [ ("version", .num 2)
       , ("windows", .arr [
           .obj [ ("tabs", .arr [
               .obj [ ("url", .str "https://c.example/"), ("pinned", .bool false) ] ]) ] ]) ]

def c2WinNoActive : WindowSnapshotV2 :=
  { tabs := [{ url := "https://c.example/", pinned := false
             , workspaceId := none, active := true }]
  , focused := false, state := .normal }

def c2SnapNoActive : WorkspaceSessionSnapshotV2 :=
  { version := 2, savedAt := 0, activeWorkspaceId := none
  , windows := [c2WinNoActive] }

/-- Claim C2 witness: the amended theorem applied to a concrete decoder run
whose single tab had no active flag — the decoder forces it active. -/
theorem c2_active_invariant_amended_witness :
    normalizeSnapshotV2 c2RawNoActive 0 = some c2SnapNoActive ∧
    c2WinNoActive.tabs.any (fun t => t.active) = true :=
  ⟨by decide,
   c2_active_invariant_amended.1 c2RawNoActive 0 c2SnapNoActive (by decide)
     c2WinNoActive (by decide) (by decide)⟩

-- ---------- v1 snapshots and the v1→v2 upgrade (convertSnapshotV1ToV2) ----------

structure SnapshotV1Workspace where
  workspaceId : String
  tabUrls : List String
  activeTabIndex : Option Int
  deriving DecidableEq, Repr

structure WorkspaceSessionSnapshotV1 where
  version : Nat
  savedAt : Int
  activeWorkspaceId : Option String
  workspaces : List SnapshotV1Workspace
  deriving DecidableEq, Repr

/-- `tabs[tabs.length - 1].active = true`. -/
def markLastActive : List TabSnapshotV2 → List TabSnapshotV2
  | [] => []
  | [t] => [{ t with active := true }]
  | t :: ts => t :: markLastActive ts

/-- The `forEach` body of `convertSnapshotV1ToV2` over one workspace's
`tabUrls`, carrying the running original index: skip internal URLs, push the
tab with `active:false`, then mark the just-pushed tab active when the
workspace id matches `activeWorkspaceId` and the original index matches
`activeTabIndex`. -/
def convertTabUrlsLoop (v1Active : Option String) (ws : SnapshotV1Workspace) :
    List String → Int → List TabSnapshotV2 → List TabSnapshotV2
  | [], _, tabs => tabs
  | url :: rest, index, tabs =>
    if isInternalBrowserUrl url then convertTabUrlsLoop v1Active ws rest (index + 1) tabs
    else
      let tabs := tabs ++ [{ url := url, pinned := false
                           , workspaceId := some ws.workspaceId, active := false }]
      let tabs :=
        if v1Active == some ws.workspaceId && ws.activeTabIndex == some index then
          markLastActive tabs
        else tabs
      convertTabUrlsLoop v1Active ws rest (index + 1) tabs

/-- `convertSnapshotV1ToV2` from src/background.js: flatten all workspaces into
one tab sequence inside a single synthetic focused normal window. -/
def convertSnapshotV1ToV2 (v1 : WorkspaceSessionSnapshotV1) : WorkspaceSessionSnapshotV2 :=
  let tabs := v1.workspaces.foldl
    (fun tabs ws => convertTabUrlsLoop v1.activeWorkspaceId ws ws.tabUrls 0 tabs) []
  let tabs := forceFirstActive tabs
  { version := 2
  , savedAt := v1.savedAt
  , activeWorkspaceId := v1.activeWorkspaceId
  , windows := [{ tabs := tabs, focused := true, state := .normal }] }

/-- Modelled from the claim C6 wording: the flattened tab sequence — all v1
workspaces' `tabUrls` concatenated in order, internal/privileged URLs
excluded, each tab unpinned and tagged with its source workspace's id, and
active exactly when the source workspace id equals the v1 `activeWorkspaceId`
and the tab's original index in that workspace's `tabUrls` equals
`activeTabIndex`. -/
def specV1FlattenedTabs (v1 : WorkspaceSessionSnapshotV1) : List TabSnapshotV2 :=
  (v1.workspaces.map (fun ws =>
    ws.tabUrls.enum.filterMap (fun p =>
      if isInternalBrowserUrl p.2 then none
      else some { url := p.2, pinned := false, workspaceId := some ws.workspaceId
                , active := v1.activeWorkspaceId == some ws.workspaceId
                    && ws.activeTabIndex == some (p.1 : Int) }))).flatten

theorem markLastActive_append (l : List TabSnapshotV2) (t : TabSnapshotV2) :
    markLastActive (l ++ [t]) = l ++ [{ t with active := true }] := by
  induction l with
  | nil => rfl
  | cons x l ih =>
    cases l with
    | nil => simp [markLastActive]
    | cons y l2 => simpa [markLastActive] using ih

theorem convertTabUrlsLoop_eq (v1Active : Option String) (ws : SnapshotV1Workspace)
    (urls : List String) : ∀ (index : Nat) (tabs : List TabSnapshotV2),
    convertTabUrlsLoop v1Active ws urls (index : Int) tabs
      = tabs ++ ((urls.enumFrom index).filterMap (fun p =>
          if isInternalBrowserUrl p.2 then none
          else some { url := p.2, pinned := false, workspaceId := some ws.workspaceId
                    , active := v1Active == some ws.workspaceId
                        && ws.activeTabIndex == some (p.1 : Int) })) := by
  induction urls with
  | nil => intro index tabs; simp [convertTabUrlsLoop]
  | cons url rest ih =>
    intro index tabs
    have hcast : ((index : Int) + 1) = ((index + 1 : Nat) : Int) := by push_cast; ring
    have hunfold : convertTabUrlsLoop v1Active ws (url :: rest) (index : Int) tabs
        = (if isInternalBrowserUrl url then
            convertTabUrlsLoop v1Active ws rest ((index : Int) + 1) tabs
          else
            convertTabUrlsLoop v1Active ws rest ((index : Int) + 1)
              (if v1Active == some ws.workspaceId
                  && ws.activeTabIndex == some (index : Int) then
                markLastActive
                  (tabs ++ [TabSnapshotV2.mk url false (some ws.workspaceId) false])
              else tabs ++ [TabSnapshotV2.mk url false (some ws.workspaceId) false])) := rfl
    rw [hunfold]
    by_cases hint : isInternalBrowserUrl url = true
    · rw [if_pos hint, hcast, ih]
      simp [List.enumFrom, hint]
    · rw [if_neg hint]
      by_cases hc : (v1Active == some ws.workspaceId
          && ws.activeTabIndex == some (index : Int)) = true
      · rw [if_pos hc, markLastActive_append, hcast, ih]
        simp [List.enumFrom, hint, hc]
      · rw [if_neg hc, hcast, ih]
        simp only [Bool.not_eq_true] at hc
        simp [List.enumFrom, hint, hc]

theorem convertWorkspaces_foldl_eq (v1Active : Option String)
    (wss : List SnapshotV1Workspace) (acc : List TabSnapshotV2) :
    wss.foldl (fun tabs ws => convertTabUrlsLoop v1Active ws ws.tabUrls 0 tabs) acc
      = acc ++ (wss.map (fun ws =>
          ws.tabUrls.enum.filterMap (fun p =>
            if isInternalBrowserUrl p.2 then none
            else some { url := p.2, pinned := false, workspaceId := some ws.workspaceId
                      , active := v1Active == some ws.workspaceId
                          && ws.activeTabIndex == some (p.1 : Int) }))).flatten := by
  have loop0 : ∀ (ws : SnapshotV1Workspace) (tabs : List TabSnapshotV2),
      convertTabUrlsLoop v1Active ws ws.tabUrls 0 tabs
        = tabs ++ (ws.tabUrls.enum.filterMap (fun p =>
            if isInternalBrowserUrl p.2 then none
            else some { url := p.2, pinned := false, workspaceId := some ws.workspaceId
                      , active := v1Active == some ws.workspaceId
                          && ws.activeTabIndex == some (p.1 : Int) })) := by
    intro ws tabs
    have h := convertTabUrlsLoop_eq v1Active ws ws.tabUrls 0 tabs
    simpa [List.enum] using h
  induction wss generalizing acc with
  | nil => simp
  | cons ws wss ih =>
    rw [List.foldl_cons, loop0, ih]
    simp [List.append_assoc]

/-- Claim C6: the v1→v2 upgrade is deterministic and produces exactly one
synthetic window with `focused=true` and state `normal`, whose tab list is the
concatenation of all v1 workspaces' `tabUrls` in order with internal URLs
excluded, each tab unpinned and tagged with its source workspace id, a tab
active exactly when its source workspace id equals `activeWorkspaceId` and its
original index equals `activeTabIndex`, and the first tab forced active when
no tab matched. -/
theorem c6_v1_to_v2_upgrade (v1 : WorkspaceSessionSnapshotV1) :
    convertSnapshotV1ToV2 v1
      = { version := 2
        , savedAt := v1.savedAt
        , activeWorkspaceId := v1.activeWorkspaceId
        , windows := [{ tabs := forceFirstActive (specV1FlattenedTabs v1)
                      , focused := true, state := .normal }] } := by
  unfold convertSnapshotV1ToV2 specV1FlattenedTabs
  rw [convertWorkspaces_foldl_eq]
  simp

-- ---------- C3: window reconciliation for restore ----------

structure WindowCreateData where
  focused : Bool
  url : String
  type : String
  state : WindowStateKind
  left : Option Int := none
  top : Option Int := none
  width : Option Int := none
  height : Option Int := none
  deriving DecidableEq, Repr

/-- `buildWindowCreateData` from src/background.js: blank unfocused normal
window; maximized/fullscreen snapshot windows carry only their state, others
get state normal plus the recorded geometry. -/
def buildWindowCreateData (sw : WindowSnapshotV2) : WindowCreateData :=
  if sw.state = .maximized ∨ sw.state = .fullscreen then
    { focused := false, url := "about:blank", type := "normal", state := sw.state }
  else
    { focused := false, url := "about:blank", type := "normal", state := .normal
    , left := sw.left, top := sw.top, width := sw.width, height := sw.height }

/-- The `while (target.length < snapshotWindows.length)` creation loop of
`reconcileWindowsForRestore`; `create` models `chrome.windows.create`
(`none` = platform error, which breaks the loop). -/
def reconcileLoop (create : WindowCreateData → Option CWindow)
    (snaps : List WindowSnapshotV2) (target : List CWindow) : List CWindow :=
  if h : target.length < snaps.length then
    match create (buildWindowCreateData (snaps.get ⟨target.length, h⟩)) with
    | none => target
    | some w => reconcileLoop create snaps (target ++ [w])
  else target
termination_by snaps.length - target.length
decreasing_by simp; omega

structure ReconcileResult where
  target : List CWindow
  removedWindowIds : List Int
  deriving DecidableEq, Repr

/-- `reconcileWindowsForRestore` from src/background.js, with the surplus
window removals reported as the list of removed window ids. -/
def reconcileWindowsForRestore (create : WindowCreateData → Option CWindow)
    (existing : List CWindow) (snaps : List WindowSnapshotV2) : ReconcileResult :=
  { target := reconcileLoop create snaps (existing.take snaps.length)
  , removedWindowIds := (existing.drop snaps.length).filterMap (fun w => w.id) }

def dfltCWindow : CWindow :=
  { id := none, tabs := [], focused := false, state := none }

theorem reconcileLoop_eq (create : WindowCreateData → Option CWindow)
    (snaps : List WindowSnapshotV2)
    (hc : ∀ cd, (create cd).isSome = true) :
    ∀ (k : Nat) (target : List CWindow), snaps.length - target.length = k →
    reconcileLoop create snaps target
      = target ++ ((snaps.drop target.length).map
          (fun sw => (create (buildWindowCreateData sw)).getD dfltCWindow)) := by
  intro k
  induction k with
  | zero =>
    intro target ht
    rw [reconcileLoop]
    have hle : ¬ target.length < snaps.length := by omega
    rw [dif_neg hle]
    have hds : snaps.length ≤ target.length := by omega
    simp [List.drop_eq_nil_of_le hds]
  | succ k ihk =>
    intro target ht
    have hlt : target.length < snaps.length := by omega
    rw [reconcileLoop, dif_pos hlt]
    obtain ⟨w, hw⟩ := Option.isSome_iff_exists.mp
      (hc (buildWindowCreateData (snaps.get ⟨target.length, hlt⟩)))
    rw [hw]
    change reconcileLoop create snaps (target ++ [w]) = _
    rw [ihk (target ++ [w]) (by simp; omega)]
    have hlen : (target ++ [w]).length = target.length + 1 := by simp
    rw [hlen, List.append_assoc]
    congr 1
    simp only [List.singleton_append, List.map_drop]
    have hw2 : create (buildWindowCreateData snaps[target.length]) = some w := by
      simpa [List.get_eq_getElem] using hw
    have hlt2 : target.length
        < (snaps.map (fun sw => (create (buildWindowCreateData sw)).getD dfltCWindow)).length := by
      simpa using hlt
    rw [List.drop_eq_getElem_cons hlt2, List.getElem_map, hw2]
    simp

theorem filterMap_id_eq_map (l : List CWindow) (h : ∀ w ∈ l, (w.id).isSome = true) :
    l.filterMap (fun w => w.id) = l.map (fun w => w.id.getD 0) := by
  induction l with
  | nil => simp
  | cons w l ih =>
    have hw := h w (by simp)
    obtain ⟨i, hi⟩ := Option.isSome_iff_exists.mp hw
    simp [List.filterMap_cons, hi, ih (fun x hx => h x (by simp [hx]))]

/-- Claim C3: restore reconciliation maps snapshot window i to existing normal
window i by position: with M existing windows and N snapshot windows (window
creation succeeding and existing windows carrying ids), the first min(M,N)
existing windows are reused in order, exactly max(N-M,0) windows are created —
each from `buildWindowCreateData` of the corresponding snapshot window, in
order — and exactly the max(M-N,0) surplus existing windows beyond index N are
removed. -/
theorem c3_reconcile_by_position (create : WindowCreateData → Option CWindow)
    (existing : List CWindow) (snaps : List WindowSnapshotV2)
    (hc : ∀ cd, (create cd).isSome = true)
    (hid : ∀ w ∈ existing, (w.id).isSome = true) :
    (reconcileWindowsForRestore create existing snaps).target
        = existing.take snaps.length
          ++ ((snaps.drop (min snaps.length existing.length)).map
            (fun sw => (create (buildWindowCreateData sw)).getD dfltCWindow)) ∧
    (reconcileWindowsForRestore create existing snaps).target.length = snaps.length ∧
    ((snaps.drop (min snaps.length existing.length)).map
        (fun sw => (create (buildWindowCreateData sw)).getD dfltCWindow)).length
      = snaps.length - min snaps.length existing.length ∧
    (reconcileWindowsForRestore create existing snaps).removedWindowIds
        = (existing.drop snaps.length).map (fun w => w.id.getD 0) ∧
    (reconcileWindowsForRestore create existing snaps).removedWindowIds.length
      = existing.length - snaps.length := by
  have htake : (existing.take snaps.length).length = min snaps.length existing.length := by
    simp [List.length_take]
  have htarget : (reconcileWindowsForRestore create existing snaps).target
      = existing.take snaps.length
        ++ ((snaps.drop (min snaps.length existing.length)).map
          (fun sw => (create (buildWindowCreateData sw)).getD dfltCWindow)) := by
    unfold reconcileWindowsForRestore
    simp only
    rw [reconcileLoop_eq create snaps hc (snaps.length - (existing.take snaps.length).length)
      (existing.take snaps.length) rfl]
    rw [htake]
  have hremoved : (reconcileWindowsForRestore create existing snaps).removedWindowIds
      = (existing.drop snaps.length).map (fun w => w.id.getD 0) := by
    unfold reconcileWindowsForRestore
    simp only
    exact filterMap_id_eq_map _ (fun w hw => hid w (List.mem_of_mem_drop hw))
  refine ⟨htarget, ?_, ?_, hremoved, ?_⟩
  · rw [htarget]
    simp only [List.length_append, List.length_map, List.length_drop, htake]
    omega
  · simp only [List.length_map, List.length_drop]
  · rw [hremoved]
    simp only [List.length_map, List.length_drop]

def c3Create : WindowCreateData → Option CWindow :=
  fun cd => some { id := some 100, tabs := [], focused := cd.focused
                 , state := some "normal", left := cd.left, top := cd.top
                 , width := cd.width, height := cd.height }

def c3Existing : List CWindow :=
  [{ id := some 1, tabs := [], focused := true, state := some "normal" }]

def c3Snaps : List WindowSnapshotV2 :=
  [ { tabs := [], focused := true, state := .normal }
  , { tabs := [], focused := false, state := .maximized } ]

/-- Claim C3 witness: the theorem applied to one existing window and a
two-window snapshot — the existing window is reused, one window is created
from the second snapshot window's create data, none removed. -/
theorem c3_reconcile_by_position_witness :
    (reconcileWindowsForRestore c3Create c3Existing c3Snaps).target
        = c3Existing.take c3Snaps.length
          ++ ((c3Snaps.drop (min c3Snaps.length c3Existing.length)).map
            (fun sw => (c3Create (buildWindowCreateData sw)).getD dfltCWindow)) ∧
    (reconcileWindowsForRestore c3Create c3Existing c3Snaps).removedWindowIds.length
      = c3Existing.length - c3Snaps.length :=
  ⟨(c3_reconcile_by_position c3Create c3Existing c3Snaps (fun _ => rfl) (by decide)).1,
   (c3_reconcile_by_position c3Create c3Existing c3Snaps (fun _ => rfl) (by decide)).2.2.2.2⟩

-- ---------- C4: restore run cleanup (restoreWorkspaceSessionFromSnapshot) ----------

def STARTUP_AUTO_ASSIGN_PAUSE_MS : Int := 15000

structure RestoreFlags where
  isRestoringWorkspaceSession : Bool
  snapshotSavePausedUntil : Int
  autoAssignPausedUntil : Int
  immediateCaptures : Nat
  deriving DecidableEq, Repr

/-- Whether the try-block of the restore run (per-window restore and
finalization, which only touch the browser world) ran to completion or threw;
either way the exception is caught and logged, so only the early `return` on an
empty target list changes what happens afterwards. -/
inductive RestoreTailOutcome where
  | completed
  | raised
  deriving DecidableEq, Repr

/-- Control-flow skeleton of `restoreWorkspaceSessionFromSnapshot` as it
affects the module flags and the follow-up capture: bail out when the decoded
snapshot is absent or has no windows; otherwise set the re-entrancy flag and
max-merge both pauses (entry time + 15s), reconcile windows, run the
try/catch/finally — the `finally` always clears the flag and sets the save
pause to the current time — and afterwards issue one immediate
`persistWorkspaceSessionSnapshot` call (counted in `immediateCaptures`),
except that the `return` taken inside `try` when reconciliation produced no
target windows skips the statements after the try/finally block. -/
def restoreWorkspaceSessionFromSnapshotRun (snapshot : Option WorkspaceSessionSnapshotV2)
    (create : WindowCreateData → Option CWindow) (existingWindows : List CWindow)
    (tail : RestoreTailOutcome) (entryTime finallyTime : Int)
    (flags : RestoreFlags) : RestoreFlags :=
  match snapshot with
  | none => flags
  | some snap =>
    if snap.windows.isEmpty then flags
    else
      let flags := { flags with
        isRestoringWorkspaceSession := true
        , autoAssignPausedUntil :=
            max flags.autoAssignPausedUntil (entryTime + STARTUP_AUTO_ASSIGN_PAUSE_MS)
        , snapshotSavePausedUntil :=
            max flags.snapshotSavePausedUntil (entryTime + STARTUP_AUTO_ASSIGN_PAUSE_MS) }
      let targetWindows :=
        (reconcileWindowsForRestore create existingWindows snap.windows).target
      let flags := { flags with
        isRestoringWorkspaceSession := false, snapshotSavePausedUntil := finallyTime }
      match tail with
      | .raised => { flags with immediateCaptures := flags.immediateCaptures + 1 }
      | .completed =>
        if targetWindows.isEmpty then flags
        else { flags with immediateCaptures := flags.immediateCaptures + 1 }

/-- Claim C4 (amended): every restore run that enters restore mode ends with
the re-entrancy flag cleared and the save pause set to the current time
(rather than the original future deadline), whether the try-block completed or
raised; one immediate snapshot capture is issued except when window
reconciliation produced no target windows, whose early `return` skips the
capture. -/
theorem c4_restore_cleanup_amended (snapshot : Option WorkspaceSessionSnapshotV2)
    (snap : WorkspaceSessionSnapshotV2) (create : WindowCreateData → Option CWindow)
    (existingWindows : List CWindow) (tail : RestoreTailOutcome)
    (entryTime finallyTime : Int) (flags : RestoreFlags)
    (hsnap : snapshot = some snap) (hne : snap.windows ≠ []) :
    (restoreWorkspaceSessionFromSnapshotRun snapshot create existingWindows tail
        entryTime finallyTime flags).isRestoringWorkspaceSession = false ∧
    (restoreWorkspaceSessionFromSnapshotRun snapshot create existingWindows tail
        entryTime finallyTime flags).snapshotSavePausedUntil = finallyTime ∧
    (restoreWorkspaceSessionFromSnapshotRun snapshot create existingWindows tail
        entryTime finallyTime flags).immediateCaptures
      = (if tail = .completed
            ∧ (reconcileWindowsForRestore create existingWindows snap.windows).target = []
          then flags.immediateCaptures else flags.immediateCaptures + 1) := by
  subst hsnap
  have hE : snap.windows.isEmpty = false := by
    simpa [List.isEmpty_iff] using hne
  unfold restoreWorkspaceSessionFromSnapshotRun
  cases tail with
  | raised => simp [hE]
  | completed =>
    by_cases ht : (reconcileWindowsForRestore create existingWindows snap.windows).target = []
    · simp [hE, ht]
    · have ht2 : (reconcileWindowsForRestore create existingWindows
          snap.windows).target.isEmpty = false := by
        simpa [List.isEmpty_iff] using ht
      simp [hE, ht, ht2]

def c4Snapshot : WorkspaceSessionSnapshotV2 :=
  { version := 2, savedAt := 3, activeWorkspaceId := none
  , windows := [{ tabs := [{ url := "https://c4.example/", pinned := false
                           , workspaceId := none, active := true }]
                , focused := true, state := .normal }] }

def c4FailingCreate : WindowCreateData → Option CWindow := fun _ => none

def c4Flags0 : RestoreFlags :=
  { isRestoringWorkspaceSession := false, snapshotSavePausedUntil := 0
  , autoAssignPausedUntil := 0, immediateCaptures := 0 }

/-- Claim C4 counterexample: a run that enters restore mode (non-empty decoded
snapshot) with no existing windows and failing window creation gets an empty
target list; its early `return` still runs the `finally` cleanup but skips the
immediate snapshot capture, so no capture is issued. -/
theorem c4_counterexample :
    (restoreWorkspaceSessionFromSnapshotRun (some c4Snapshot) c4FailingCreate []
        .completed 1000 2000 c4Flags0).immediateCaptures = 0 ∧
    (restoreWorkspaceSessionFromSnapshotRun (some c4Snapshot) c4FailingCreate []
        .completed 1000 2000 c4Flags0).isRestoringWorkspaceSession = false ∧
    (restoreWorkspaceSessionFromSnapshotRun (some c4Snapshot) c4FailingCreate []
        .completed 1000 2000 c4Flags0).snapshotSavePausedUntil = 2000 := by
  have hloop : reconcileLoop c4FailingCreate c4Snapshot.windows [] = [] := by
    rw [reconcileLoop]
    simp [c4FailingCreate, c4Snapshot]
  have hE : c4Snapshot.windows.isEmpty = false := by decide
  refine ⟨?_, ?_, ?_⟩ <;>
    simp [restoreWorkspaceSessionFromSnapshotRun, reconcileWindowsForRestore, hE, hloop,
      c4Flags0]

/-- Claim C4 witness: the amended theorem applied to a run whose try-block
raised — the cleanup still happens and the capture is issued. -/
theorem c4_restore_cleanup_amended_witness :
    (restoreWorkspaceSessionFromSnapshotRun (some c4Snapshot) c4FailingCreate []
        .raised 1000 2000 c4Flags0).isRestoringWorkspaceSession = false ∧
    (restoreWorkspaceSessionFromSnapshotRun (some c4Snapshot) c4FailingCreate []
        .raised 1000 2000 c4Flags0).snapshotSavePausedUntil = 2000 ∧
    (restoreWorkspaceSessionFromSnapshotRun (some c4Snapshot) c4FailingCreate []
        .raised 1000 2000 c4Flags0).immediateCaptures
      = (if RestoreTailOutcome.raised = .completed
            ∧ (reconcileWindowsForRestore c4FailingCreate [] c4Snapshot.windows).target = []
          then c4Flags0.immediateCaptures else c4Flags0.immediateCaptures + 1) :=
  c4_restore_cleanup_amended (some c4Snapshot) c4Snapshot c4FailingCreate []
    .raised 1000 2000 c4Flags0 rfl (by decide)

-- ---------- C5: save scheduling and the persist paths ----------

structure SchedState where
  isRestoringWorkspaceSession : Bool
  snapshotSavePausedUntil : Int
  saveSessionTimerPending : Bool
  deriving DecidableEq, Repr

/-- `scheduleWorkspaceSessionSnapshotSave` from src/background.js: a no-op
while restoring or while `Date.now() < snapshotSavePausedUntil`; otherwise it
cancels any pending debounce timer and arms a new one. -/
def scheduleWorkspaceSessionSnapshotSave (s : SchedState) (now : Int) : SchedState :=
  if s.isRestoringWorkspaceSession then s
  else if now < s.snapshotSavePausedUntil then s
  else { s with saveSessionTimerPending := true }

/-- The debounce timer's callback: clear the timer handle, then call
`persistWorkspaceSessionSnapshot` (which itself checks only the restore
flag). -/
def debounceTimerFire (s : SchedState) (state : ExtensionState) (windows : List CWindow)
    (allGroups : List TabGroup) (now : Int)
    (stored : Option WorkspaceSessionSnapshotV2) :
    SchedState × Option WorkspaceSessionSnapshotV2 :=
  ({ s with saveSessionTimerPending := false },
   persistWorkspaceSessionSnapshot s.isRestoringWorkspaceSession state windows allGroups
     now stored)

/-- The 10-second `setInterval` heartbeat body: an unconditional call to
`persistWorkspaceSessionSnapshot`. -/
def heartbeatFire (s : SchedState) (state : ExtensionState) (windows : List CWindow)
    (allGroups : List TabGroup) (now : Int)
    (stored : Option WorkspaceSessionSnapshotV2) : Option WorkspaceSessionSnapshotV2 :=
  persistWorkspaceSessionSnapshot s.isRestoringWorkspaceSession state windows allGroups
    now stored

/-- The `chrome.runtime.onSuspend` listener: cancel a pending debounce timer,
then call `persistWorkspaceSessionSnapshot`. -/
def onSuspendSave (s : SchedState) (state : ExtensionState) (windows : List CWindow)
    (allGroups : List TabGroup) (now : Int)
    (stored : Option WorkspaceSessionSnapshotV2) :
    SchedState × Option WorkspaceSessionSnapshotV2 :=
  ({ s with saveSessionTimerPending := false },
   persistWorkspaceSessionSnapshot s.isRestoringWorkspaceSession state windows allGroups
     now stored)

/-- Claim C5 (amended): while a restore is in progress no save path writes a
snapshot — scheduling is a no-op and every persist call bails out on the
restore flag. While only the save-pause window is active,
`scheduleWorkspaceSessionSnapshotSave` is a no-op (so no new debounce save is
armed), but the persist calls made by a previously armed debounce timer, the
heartbeat and the suspend handler check only the restore flag, not the pause
timestamp. -/
theorem c5_no_save_amended :
    (∀ (s : SchedState) (state : ExtensionState) (windows : List CWindow)
        (allGroups : List TabGroup) (now : Int)
        (stored : Option WorkspaceSessionSnapshotV2),
      s.isRestoringWorkspaceSession = true →
      scheduleWorkspaceSessionSnapshotSave s now = s ∧
      (debounceTimerFire s state windows allGroups now stored).2 = stored ∧
      heartbeatFire s state windows allGroups now stored = stored ∧
      (onSuspendSave s state windows allGroups now stored).2 = stored) ∧
    (∀ (s : SchedState) (now : Int), now < s.snapshotSavePausedUntil →
      scheduleWorkspaceSessionSnapshotSave s now = s) := by
  constructor
  · intro s state windows allGroups now stored hR
    refine ⟨?_, ?_, ?_, ?_⟩ <;>
      simp [scheduleWorkspaceSessionSnapshotSave, debounceTimerFire, heartbeatFire,
        onSuspendSave, persistWorkspaceSessionSnapshot, hR]
  · intro s now hP
    by_cases hR : s.isRestoringWorkspaceSession
    · simp [scheduleWorkspaceSessionSnapshotSave, hR]
    · simp [scheduleWorkspaceSessionSnapshotSave, hR, hP]

def c5Window : CWindow :=
  { id := some 1
  , tabs := [{ index := 0, url := some "https://site.example/", pendingUrl := none
             , pinned := false, active := true, groupId := -1 }]
  , focused := true, state := some "normal" }

/-- Claim C5 counterexample: with the save pause active (now 500 < paused-until
1000) but no restore in progress, the heartbeat's persist call still writes a
snapshot to storage — the pause timestamp is never consulted by
`persistWorkspaceSessionSnapshot`. -/
theorem c5_counterexample :
    (500 : Int) < (1000 : Int) ∧
    heartbeatFire
        { isRestoringWorkspaceSession := false, snapshotSavePausedUntil := 1000
        , saveSessionTimerPending := false }
        { workspaces := [], activeWorkspaceId := none } [c5Window] [] 500 none
      ≠ none := by
  constructor
  · decide
  · decide

/-- Claim C5 witness: the amended theorem applied to a concrete state with the
restore flag set, and to a concrete paused state. -/
theorem c5_no_save_amended_witness :
    (heartbeatFire
        { isRestoringWorkspaceSession := true, snapshotSavePausedUntil := 0
        , saveSessionTimerPending := false }
        { workspaces := [], activeWorkspaceId := none } [c5Window] [] 500 none = none) ∧
    (scheduleWorkspaceSessionSnapshotSave
        { isRestoringWorkspaceSession := false, snapshotSavePausedUntil := 1000
        , saveSessionTimerPending := false } 500
      = { isRestoringWorkspaceSession := false, snapshotSavePausedUntil := 1000
        , saveSessionTimerPending := false }) :=
  ⟨(c5_no_save_amended.1
      { isRestoringWorkspaceSession := true, snapshotSavePausedUntil := 0
      , saveSessionTimerPending := false }
      { workspaces := [], activeWorkspaceId := none } [c5Window] [] 500 none rfl).2.2.1,
   c5_no_save_amended.2
     { isRestoringWorkspaceSession := false, snapshotSavePausedUntil := 1000
     , saveSessionTimerPending := false } 500 (by decide)⟩

-- ---------- live tabs/groups world (Group Reconciler, auto-assignment,
-- message handlers) ----------

structure GTab where
  id : Option Int
  windowId : Option Int
  groupId : Int
  pinned : Bool
  active : Bool
  url : Option String
  pendingUrl : Option String
  openerTabId : Option Int
  deriving DecidableEq, Repr

structure World where
  tabs : List GTab
  groups : List TabGroup
  nextGroupId : Int
  state : ExtensionState
  sched : SchedState
  now : Int
  currentWindowId : Option Int
  deriving DecidableEq, Repr

/-- `chrome.tabGroups.query({ windowId })`. -/
def queryTabGroupsInWindow (groups : List TabGroup) (windowId : Int) : List TabGroup :=
  groups.filter (fun g => g.windowId == windowId)

/-- `getWorkspaceGroup` from src/background.js: the group in the window whose
title equals the workspace's derived title. -/
def getWorkspaceGroup (workspace : Workspace) (windowId : Int)
    (groups : List TabGroup) : Option TabGroup :=
  (queryTabGroupsInWindow groups windowId).find?
    (fun g => g.title == getWorkspaceGroupTitle workspace)

/-- `chrome.tabGroups.update(groupId, { title, color })` (success path). -/
def updateGroupTitleColor (groups : List TabGroup) (groupId : Int)
    (title : String) (color : GroupColor) : List TabGroup :=
  groups.map (fun g =>
    if g.id == groupId then { g with title := title, color := color } else g)

/-- `chrome.tabGroups.update(groupId, { title, color, collapsed: false })`. -/
def updateGroupTitleColorExpanded (groups : List TabGroup) (groupId : Int)
    (title : String) (color : GroupColor) : List TabGroup :=
  groups.map (fun g =>
    if g.id == groupId then
      { g with title := title, color := color, collapsed := false }
    else g)

/-- `chrome.tabs.group({ groupId, tabIds })`: move the named tabs into the
group (success path). -/
def groupTabsInto (tabs : List GTab) (groupId : Int) (tabIds : List Int) : List GTab :=
  tabs.map (fun t =>
    if (match t.id with | some i => tabIds.contains i | none => false) then
      { t with groupId := groupId }
    else t)

/-- `collapseOtherGroups` from src/background.js: every group in the window
gets `collapsed := (group.id !== activeGroupId)`. -/
def collapseOtherGroups (groups : List TabGroup) (windowId : Int)
    (activeGroupId : Int) : List TabGroup :=
  groups.map (fun g =>
    if g.windowId == windowId then { g with collapsed := g.id != activeGroupId } else g)

/-- The group as created by `chrome.tabs.group({tabIds, createProperties:{windowId}})`
before the follow-up update: chrome's creation defaults (empty title, grey,
expanded), with the model handing out `nextGroupId` as the fresh id. -/
def freshGroup (windowId newGroupId : Int) : TabGroup :=
  { id := newGroupId, windowId := windowId, title := "", color := .grey
  , collapsed := false }

/-- `addTabToWorkspace` from src/background.js, platform calls succeeding: a
fresh group created through `chrome.tabs.group({createProperties})` gets id
`nextGroupId` with chrome's creation defaults (empty title, grey, expanded),
and `collapseOtherGroups` runs after either kind of assignment. -/
def addTabToWorkspace (tabId : Int) (windowId : Int) (workspace : Workspace)
    (w : World) : World :=
  let title := getWorkspaceGroupTitle workspace
  let color := mapHexToGroupColor workspace.color
  match getWorkspaceGroup workspace windowId w.groups with
  | some existing =>
    let groups := updateGroupTitleColor w.groups existing.id title color
    let groupId := existing.id
    let tabs := groupTabsInto w.tabs groupId [tabId]
    let groups := collapseOtherGroups groups windowId groupId
    { w with tabs := tabs, groups := groups }
  | none =>
    let newGroupId := w.nextGroupId
    let groups := w.groups ++ [freshGroup windowId newGroupId]
    let tabs := groupTabsInto w.tabs newGroupId [tabId]
    let groups := updateGroupTitleColorExpanded groups newGroupId title color
    let groups := collapseOtherGroups groups windowId newGroupId
    { w with tabs := tabs, groups := groups, nextGroupId := w.nextGroupId + 1 }


-- ---------- C8: the single-expanded-group invariant ----------

theorem collapseOtherGroups_expanded (groups : List TabGroup)
    (windowId activeGroupId : Int) :
    (collapseOtherGroups groups windowId activeGroupId).filter
        (fun g => g.windowId == windowId && !g.collapsed)
      = (groups.filter (fun g => g.windowId == windowId && g.id == activeGroupId)).map
          (fun g => { g with collapsed := false }) := by
  unfold collapseOtherGroups
  rw [List.filter_map]
  have hpq : ((fun g : TabGroup => g.windowId == windowId && !g.collapsed) ∘
      (fun g : TabGroup => if g.windowId == windowId then
        { g with collapsed := g.id != activeGroupId } else g))
      = (fun g : TabGroup => g.windowId == windowId && g.id == activeGroupId) := by
    funext g
    by_cases hw : g.windowId = windowId
    · by_cases hid : g.id = activeGroupId <;> simp [Function.comp, hw, hid, bne]
    · have hwb : (g.windowId == windowId) = false := by simp [hw]
      simp [Function.comp, hwb]
  rw [hpq]
  apply List.map_congr_left
  intro a ha
  have hq := (List.mem_filter.mp ha).2
  simp only [Bool.and_eq_true, beq_iff_eq] at hq
  simp [hq.1, hq.2]

theorem filter_window_id_singleton (wid : Int) (groups : List TabGroup) (g : TabGroup)
    (hnodup : (groups.map TabGroup.id).Nodup) (hmem : g ∈ groups)
    (hw : g.windowId = wid) :
    groups.filter (fun x => x.windowId == wid && x.id == g.id) = [g] := by
  induction groups with
  | nil => simp at hmem
  | cons x gs ih =>
    simp only [List.map_cons, List.nodup_cons] at hnodup
    rcases List.mem_cons.mp hmem with hx | hx
    · subst hx
      rw [List.filter_cons]
      have hcond : (g.windowId == wid && g.id == g.id) = true := by simp [hw]
      rw [if_pos hcond]
      have hrest : gs.filter (fun y => y.windowId == wid && y.id == g.id) = [] := by
        apply List.filter_eq_nil_iff.mpr
        intro y hy
        simp only [Bool.and_eq_true, beq_iff_eq, not_and]
        intro _ hyid
        exact absurd (hyid ▸ List.mem_map_of_mem TabGroup.id hy) hnodup.1
      rw [hrest]
    · rw [List.filter_cons]
      have hxid : x.id ≠ g.id := by
        intro he
        exact absurd (he ▸ List.mem_map_of_mem TabGroup.id hx) hnodup.1
      have hcond : (x.windowId == wid && x.id == g.id) = false := by
        simp [hxid]
      rw [hcond]
      simp only [Bool.false_eq_true, if_false]
      exact ih hnodup.2 hx

/-- Claim C8: after `addTabToWorkspace` completes (existing-group reuse or
fresh-group creation), the groups of that window that are expanded
(`collapsed=false`) are exactly one — the group the tab was assigned to —
because `collapseOtherGroups` runs after the assignment. Hypotheses: group ids
are distinct and below the fresh-id counter (chrome guarantees unique group
ids). -/
theorem c8_single_expanded_group (tabId windowId : Int) (workspace : Workspace)
    (w : World)
    (hnodup : (w.groups.map TabGroup.id).Nodup)
    (hfresh : ∀ g ∈ w.groups, g.id < w.nextGroupId) :
    ((addTabToWorkspace tabId windowId workspace w).groups.filter
        (fun g => g.windowId == windowId && !g.collapsed)).map TabGroup.id
      = [match getWorkspaceGroup workspace windowId w.groups with
         | some existing => existing.id
         | none => w.nextGroupId] := by
  cases hg : getWorkspaceGroup workspace windowId w.groups with
  | some existing =>
    have hmem0 : existing ∈ queryTabGroupsInWindow w.groups windowId :=
      List.mem_of_find?_eq_some hg
    have hmem : existing ∈ w.groups := (List.mem_filter.mp hmem0).1
    have hwid : existing.windowId = windowId := by
      have := (List.mem_filter.mp hmem0).2
      simpa using this
    unfold addTabToWorkspace
    rw [hg]
    simp only
    rw [collapseOtherGroups_expanded]
    unfold updateGroupTitleColor
    rw [List.filter_map]
    have hcomp : ((fun x : TabGroup => x.windowId == windowId && x.id == existing.id) ∘
        (fun g : TabGroup => if g.id == existing.id then
          { g with title := getWorkspaceGroupTitle workspace
                 , color := mapHexToGroupColor workspace.color } else g))
        = (fun x : TabGroup => x.windowId == windowId && x.id == existing.id) := by
      funext g
      by_cases h : g.id = existing.id <;> simp [Function.comp, h]
    rw [hcomp, filter_window_id_singleton windowId w.groups existing hnodup hmem hwid]
    simp
  | none =>
    have hnodup2 : ((w.groups ++ [freshGroup windowId w.nextGroupId]).map
        TabGroup.id).Nodup := by
      rw [List.map_append, List.nodup_append]
      refine ⟨hnodup, by simp, ?_⟩
      intro a ha
      simp only [List.mem_map] at ha
      obtain ⟨g, hgmem, hgid⟩ := ha
      simp only [List.map_cons, List.map_nil, List.mem_singleton]
      intro hcon
      rw [hcon] at hgid
      have hlt := hfresh g hgmem
      simp only [freshGroup] at hgid
      omega
    have hmem2 : freshGroup windowId w.nextGroupId
        ∈ w.groups ++ [freshGroup windowId w.nextGroupId] := by simp
    have hwid2 : (freshGroup windowId w.nextGroupId).windowId = windowId := rfl
    unfold addTabToWorkspace
    rw [hg]
    simp only
    rw [collapseOtherGroups_expanded]
    unfold updateGroupTitleColorExpanded
    rw [List.filter_map]
    have hcomp : ((fun x : TabGroup => x.windowId == windowId && x.id == w.nextGroupId) ∘
        (fun g : TabGroup => if g.id == w.nextGroupId then
          { g with title := getWorkspaceGroupTitle workspace
                 , color := mapHexToGroupColor workspace.color
                 , collapsed := false } else g))
        = (fun x : TabGroup => x.windowId == windowId && x.id == w.nextGroupId) := by
      funext g
      by_cases h : g.id = w.nextGroupId <;> simp [Function.comp, h]
    rw [hcomp]
    have hid2 : (fun x : TabGroup => x.windowId == windowId && x.id == w.nextGroupId)
        = (fun x : TabGroup => x.windowId == windowId
            && x.id == (freshGroup windowId w.nextGroupId).id) := rfl
    rw [hid2, filter_window_id_singleton windowId _ _ hnodup2 hmem2 hwid2]
    simp [freshGroup]

/-- A concrete world: one collapsed-stale group in window 7, one group in
window 9, no group titled for the workspace. -/
def c8World : World :=
  { tabs := []
  , groups := [ { id := 1, windowId := 7, title := "Other", color := .blue
                , collapsed := false }
              , { id := 2, windowId := 9, title := "Else", color := .red
                , collapsed := false } ]
  , nextGroupId := 3
  , state := { workspaces := [], activeWorkspaceId := none }
  , sched := { isRestoringWorkspaceSession := false, snapshotSavePausedUntil := 0
             , saveSessionTimerPending := false }
  , now := 0, currentWindowId := none }

def c8Workspace : Workspace :=
  { id := "ws1", name := "Work", color := "#FF5252", icon := "" }

/-- Claim C8 witness: the theorem at the concrete world above — after the
assignment creates group 3, it is the single expanded group in window 7. -/
theorem c8_single_expanded_group_witness :
    ((addTabToWorkspace 42 7 c8Workspace c8World).groups.filter
        (fun g => g.windowId == 7 && !g.collapsed)).map TabGroup.id = [3] := by
  have h := c8_single_expanded_group 42 7 c8Workspace c8World (by decide) (by decide)
  rw [show getWorkspaceGroup c8Workspace 7 c8World.groups = none from by decide] at h
  exact h

-- ---------- C9: auto-assignment of newly created tabs ----------

/-- `chrome.tabs.get` over the world's tab list. -/
def getTabById (tabs : List GTab) (tabId : Int) : Option GTab :=
  tabs.find? (fun t => t.id == some tabId)

/-- `chrome.tabGroups.get` over the world's group list. -/
def getTabGroupById (groups : List TabGroup) (groupId : Int) : Option TabGroup :=
  groups.find? (fun g => g.id == groupId)

/-- `getWorkspaceFromTab` from src/background.js: the workspace whose derived
title matches the tab's group title, when the tab is grouped. -/
def getWorkspaceFromTab (tab : GTab) (w : World) : Option Workspace :=
  if tab.groupId == TAB_GROUP_ID_NONE then none
  else
    match getTabGroupById w.groups tab.groupId with
    | none => none
    | some group => getWorkspaceByGroupTitle w.state.workspaces group.title

/-- `getActiveWorkspace` from src/background.js
(`!state.activeWorkspaceId` is falsy for both null and the empty string). -/
def getActiveWorkspace (state : ExtensionState) : Option Workspace :=
  match state.activeWorkspaceId with
  | none => none
  | some id =>
    if id = "" then none else state.workspaces.find? (fun ws => ws.id == id)

/-- `resolveWorkspaceForNewTab` from src/background.js: the opener tab's
workspace when the opener exists and belongs to a workspace-titled group,
else the current active workspace. -/
def resolveWorkspaceForNewTab (tab : GTab) (w : World) : Option Workspace :=
  let fromOpener :=
    match tab.openerTabId with
    | none => none
    | some openerId =>
      match getTabById w.tabs openerId with
      | none => none
      | some openerTab => getWorkspaceFromTab openerTab w
  match fromOpener with
  | some ws => some ws
  | none => getActiveWorkspace w.state

/-- `autoAssignTabToWorkspace` from src/background.js, as the decision of what
group mutation (if any) it performs: `some (tabId, windowId, workspace)` means
`addTabToWorkspace tabId windowId workspace` is invoked (followed by a
scheduled save), `none` means no group mutation at all. -/
def autoAssignTabToWorkspace (isRestoring autoAssignPausedNow : Bool) (tab : GTab)
    (w : World) : Option (Int × Int × Workspace) :=
  if isRestoring then none
  else if autoAssignPausedNow then none
  else
    match tab.id, tab.windowId with
    | some tabId, some windowId =>
      if tab.pinned then none
      else if tab.groupId != TAB_GROUP_ID_NONE then none
      else
        let url := match tab.pendingUrl with | some u => some u | none => tab.url
        if (match url with
            | some u => !(u == "") && isInternalBrowserUrl u
            | none => false) then none
        else (resolveWorkspaceForNewTab tab w).map (fun ws => (tabId, windowId, ws))
    | _, _ => none

/-- Claim C9: auto-assignment performs no group mutation when a restore is in
progress, during the post-startup pause, for a pinned tab, for an
already-grouped tab, or when the tab's URL (`pendingUrl` checked before
`url`) is internal/privileged; otherwise (with tab id and window id present)
the assignment target is `resolveWorkspaceForNewTab`: the opener's workspace
when the opener belongs to a workspace-titled group, else the current active
workspace. -/
theorem c9_auto_assign_guards (isRestoring autoAssignPausedNow : Bool) (tab : GTab)
    (w : World) :
    (isRestoring = true →
      autoAssignTabToWorkspace isRestoring autoAssignPausedNow tab w = none) ∧
    (autoAssignPausedNow = true →
      autoAssignTabToWorkspace isRestoring autoAssignPausedNow tab w = none) ∧
    (tab.pinned = true →
      autoAssignTabToWorkspace isRestoring autoAssignPausedNow tab w = none) ∧
    (tab.groupId ≠ TAB_GROUP_ID_NONE →
      autoAssignTabToWorkspace isRestoring autoAssignPausedNow tab w = none) ∧
    (∀ u : String,
      (match tab.pendingUrl with | some v => some v | none => tab.url) = some u →
      u ≠ "" → isInternalBrowserUrl u = true →
      autoAssignTabToWorkspace isRestoring autoAssignPausedNow tab w = none) ∧
    (∀ (tabId windowId : Int), tab.id = some tabId → tab.windowId = some windowId →
      tab.pinned = false → tab.groupId = TAB_GROUP_ID_NONE →
      (match (match tab.pendingUrl with | some v => some v | none => tab.url) with
        | some u => !(u == "") && isInternalBrowserUrl u
        | none => false) = false →
      autoAssignTabToWorkspace false false tab w
        = (resolveWorkspaceForNewTab tab w).map (fun ws => (tabId, windowId, ws))) := by
  unfold autoAssignTabToWorkspace
  refine ⟨?_, ?_, ?_, ?_, ?_, ?_⟩
  · intro h
    simp [h]
  · intro h
    cases isRestoring <;> simp [h]
  · intro h
    cases isRestoring <;> cases autoAssignPausedNow <;> simp <;>
      cases htid : tab.id <;> cases hwid : tab.windowId <;> simp [h]
  · intro h
    have hb : (tab.groupId != TAB_GROUP_ID_NONE) = true := by simp [bne_iff_ne, h]
    cases isRestoring <;> cases autoAssignPausedNow <;> simp <;>
      cases htid : tab.id <;> cases hwid : tab.windowId <;>
        cases hp : tab.pinned <;> simp [hb, h]
  · intro u hu hne hint
    have hguard : (match (match tab.pendingUrl with | some v => some v | none => tab.url)
        with
        | some u => !(u == "") && isInternalBrowserUrl u
        | none => false) = true := by
      rw [hu]
      simp [hne, hint]
    cases isRestoring <;> cases autoAssignPausedNow <;> simp <;>
      cases htid : tab.id <;> cases hwid : tab.windowId <;>
        cases hp : tab.pinned <;> simp [hguard]
  · intro tabId windowId htid hwid hp hg hguard
    have hb : (tab.groupId != TAB_GROUP_ID_NONE) = false := by simp [bne, hg]
    simp [htid, hwid, hp, hb, hguard]

def c9PinnedTab : GTab :=
  { id := some 5, windowId := some 7, groupId := -1, pinned := true, active := false
  , url := some "https://x.example/", pendingUrl := none, openerTabId := none }

def c9PlainTab : GTab :=
  { id := some 6, windowId := some 7, groupId := -1, pinned := false, active := false
  , url := some "https://y.example/", pendingUrl := none, openerTabId := none }

def c9World : World :=
  { tabs := [], groups := [], nextGroupId := 1
  , state := { workspaces := [{ id := "wsA", name := "A", color := "#FF5252"
                              , icon := "" }]
             , activeWorkspaceId := some "wsA" }
  , sched := { isRestoringWorkspaceSession := false, snapshotSavePausedUntil := 0
             , saveSessionTimerPending := false }
  , now := 0, currentWindowId := none }

/-- Claim C9 witness: the theorem applied to a concrete pinned tab (no
mutation) and to a concrete plain tab (assigned via
`resolveWorkspaceForNewTab`). -/
theorem c9_auto_assign_guards_witness :
    autoAssignTabToWorkspace false false c9PinnedTab c9World = none ∧
    autoAssignTabToWorkspace false false c9PlainTab c9World
      = (resolveWorkspaceForNewTab c9PlainTab c9World).map (fun ws => (6, 7, ws)) :=
  ⟨(c9_auto_assign_guards false false c9PinnedTab c9World).2.2.1 rfl,
   (c9_auto_assign_guards false false c9PlainTab c9World).2.2.2.2.2 6 7
     rfl rfl rfl rfl (by decide)⟩

-- ---------- C10: unknown-workspace commands are accepted no-ops ----------

/-- `getWorkspaceById` from src/background.js. -/
def getWorkspaceById (state : ExtensionState) (id : String) : Option Workspace :=
  state.workspaces.find? (fun ws => ws.id == id)

/-- `handleActivateWorkspace` from src/background.js over the world model:
unknown workspace → immediate return; otherwise move the current window's
active tab into the workspace's group (or, without moving, activate a tab of
the existing group and collapse the others), record the new active workspace
and schedule a snapshot save. `chrome.tabs.update(tabId, {active:true})` is
modelled as setting that tab's active flag. -/
def handleActivateWorkspace (workspaceId : String) (moveCurrentTab : Bool)
    (w : World) : World :=
  match getWorkspaceById w.state workspaceId with
  | none => w
  | some workspace =>
    match w.currentWindowId with
    | none => w
    | some windowId =>
      let w2 :=
        if moveCurrentTab then
          let activeTabs := w.tabs.filter
            (fun t => t.active && t.windowId == some windowId)
          match activeTabs.head? with
          | none => w
          | some activeTab =>
            match activeTab.id with
            | none => w
            | some tid => addTabToWorkspace tid windowId workspace w
        else
          match getWorkspaceGroup workspace windowId w.groups with
          | none => w
          | some group =>
            let inGroup := w.tabs.filter
              (fun t => t.windowId == some windowId && t.groupId == group.id)
            let target :=
              match inGroup.find? (fun t => t.active) with
              | some t => some t
              | none => inGroup.head?
            let w3 :=
              match target with
              | none => w
              | some t =>
                match t.id with
                | none => w
                | some tid =>
                  { w with tabs := w.tabs.map (fun u : GTab =>
                      if u.id == some tid then { u with active := true } else u) }
            { w3 with groups := collapseOtherGroups w3.groups windowId group.id }
      let w4 := { w2 with state := { w2.state with activeWorkspaceId := some workspaceId } }
      { w4 with sched := scheduleWorkspaceSessionSnapshotSave w4.sched w4.now }

/-- `ungroupWorkspaceTabs` from src/background.js over the world model:
unknown workspace → immediate return; otherwise every tab (with an id) in a
group titled for the workspace is ungrouped, then a snapshot save is
scheduled. -/
def ungroupWorkspaceTabs (workspaceId : String) (w : World) : World :=
  match getWorkspaceById w.state workspaceId with
  | none => w
  | some workspace =>
    let title := getWorkspaceGroupTitle workspace
    let targetGroups := w.groups.filter (fun g => g.title == title)
    let tabs := w.tabs.map (fun t =>
      if targetGroups.any (fun g => g.id == t.groupId) && t.id.isSome then
        { t with groupId := TAB_GROUP_ID_NONE }
      else t)
    let w2 := { w with tabs := tabs }
    { w2 with sched := scheduleWorkspaceSessionSnapshotSave w2.sched w2.now }

/-- `initWorkspaceGroup` from src/background.js over the world model: unknown
workspace → immediate return; otherwise every group whose title matches the
workspace's derived title is re-titled/re-colored, then a snapshot save is
scheduled. -/
def initWorkspaceGroup (workspaceId : String) (w : World) : World :=
  match getWorkspaceById w.state workspaceId with
  | none => w
  | some workspace =>
    let title := getWorkspaceGroupTitle workspace
    let color := mapHexToGroupColor workspace.color
    let groups := w.groups.map (fun g =>
      if g.title == title then { g with title := title, color := color } else g)
    let w2 := { w with groups := groups }
    { w2 with sched := scheduleWorkspaceSessionSnapshotSave w2.sched w2.now }

structure MessageResponse where
  ok : Bool
  error : Option String
  deriving DecidableEq, Repr

/-- The `chrome.runtime.onMessage` dispatch for `ACTIVATE_WORKSPACE`
(`moveCurrentTab ?? true`): the handler's promise resolves (platform errors
are absorbed by the callback wrappers), so `sendResponse({ok:true})` runs. -/
def onActivateWorkspaceMessage (workspaceId : String) (moveCurrentTab : Option Bool)
    (w : World) : World × MessageResponse :=
  (handleActivateWorkspace workspaceId (moveCurrentTab.getD true) w,
   { ok := true, error := none })

/-- The `chrome.runtime.onMessage` dispatch for `UNGROUP_WORKSPACE_TABS`. -/
def onUngroupWorkspaceTabsMessage (workspaceId : String) (w : World) :
    World × MessageResponse :=
  (ungroupWorkspaceTabs workspaceId w, { ok := true, error := none })

/-- The `chrome.runtime.onMessage` dispatch for `INIT_WORKSPACE_GROUP`. -/
def onInitWorkspaceGroupMessage (workspaceId : String) (w : World) :
    World × MessageResponse :=
  (initWorkspaceGroup workspaceId w, { ok := true, error := none })

/-- Claim C10: for each of ACTIVATE_WORKSPACE, UNGROUP_WORKSPACE_TABS and
INIT_WORKSPACE_GROUP, a workspaceId matching no workspace in the directory
gets the response `{ok:true}` (not an error) and leaves the extension state
and all tabs and groups unchanged. -/
theorem c10_unknown_workspace_noop (workspaceId : String) (moveCurrentTab : Option Bool)
    (w : World) (h : getWorkspaceById w.state workspaceId = none) :
    onActivateWorkspaceMessage workspaceId moveCurrentTab w
        = (w, { ok := true, error := none }) ∧
    onUngroupWorkspaceTabsMessage workspaceId w = (w, { ok := true, error := none }) ∧
    onInitWorkspaceGroupMessage workspaceId w = (w, { ok := true, error := none }) := by
  unfold onActivateWorkspaceMessage onUngroupWorkspaceTabsMessage
    onInitWorkspaceGroupMessage handleActivateWorkspace ungroupWorkspaceTabs
    initWorkspaceGroup
  simp [h]

def c10World : World :=
  { tabs := [ { id := some 1, windowId := some 7, groupId := 4, pinned := false
              , active := true, url := some "https://z.example/", pendingUrl := none
              , openerTabId := none } ]
  , groups := [ { id := 4, windowId := 7, title := "Else", color := .red
                , collapsed := false } ]
  , nextGroupId := 5
  , state := { workspaces := [{ id := "wsA", name := "A", color := "#FF5252"
                              , icon := "" }]
             , activeWorkspaceId := some "wsA" }
  , sched := { isRestoringWorkspaceSession := false, snapshotSavePausedUntil := 0
             , saveSessionTimerPending := false }
  , now := 0, currentWindowId := some 7 }

/-- Claim C10 witness: the theorem applied to a concrete world whose directory
has only workspace "wsA", with the unknown id "nope". -/
theorem c10_unknown_workspace_noop_witness :
    onActivateWorkspaceMessage "nope" none c10World
        = (c10World, { ok := true, error := none }) ∧
    onUngroupWorkspaceTabsMessage "nope" c10World
        = (c10World, { ok := true, error := none }) ∧
    onInitWorkspaceGroupMessage "nope" c10World
        = (c10World, { ok := true, error := none }) :=
  c10_unknown_workspace_noop "nope" none c10World (by decide)
